import Mathlib

/-
Verification development for the robot_remote_control repository (src/App.js).

The file shallowly embeds the BridgeSession logic of App.js: the WebSocket
connection lifecycle, the outbound subscribe/unsubscribe/publish frame
encoding, and the inbound message dispatch.  JavaScript numbers are modelled
as real numbers; a JavaScript value that may be "undefined" is modelled as an
Option; a JavaScript expression that may throw (property access on undefined)
is modelled in the Except monad.  React state setters become record updates on
an explicit session-state record; the WebSocket environment (socket creation,
readyState, event delivery) is modelled explicitly, with outbound frames
collected in a send log.
-/

/-- JavaScript WebSocket readyState values (CONNECTING, OPEN, CLOSING, CLOSED). -/
inductive ReadyState
  | connecting
  | opened
  | closing
  | closed
deriving DecidableEq, Repr

/-- A 3-vector of JS numbers, as in geometry_msgs/Vector3 literals. -/
structure Vec3 where
  x : ℝ
  y : ℝ
  z : ℝ

/-- The twist payload built by sendTwistCommand (App.js lines 220-223). -/
structure Twist where
  linear : Vec3
  angular : Vec3

/-- Payload of an outbound publish frame.  The source only ever publishes a
twist object (sendTwistCommand) or a plain string-data object
(sendPredefinedCommand). -/
inductive Payload
  | twist (t : Twist)
  | strData (data : String)

/-- An outbound rosbridge frame as built in App.js.  Fields whose value can be
the JS undefined are Options; JSON.stringify omits a property whose value is
undefined, so a none field is absent from the serialized frame. -/
inductive Frame
  | subscribe (id : String) (topic : Option String) (msgType : Option String) (throttle_rate : ℕ)
  | unsubscribe (id : String) (topic : Option String)
  | publish (id : String) (topic : String) (msg : Payload) (msgType : String)

/-- The batteryPercentage React state: initially null, set to the string
"N/A" when the wire percentage is undefined, otherwise a number produced by
toFixed(1) (App.js line 105).  Both null and "N/A" render as the unknown
sentinel in the UI. -/
inductive BatteryField
  | nullval
  | na
  | val (x : ℝ)

/-- Both the initial null and the "N/A" string are the unknown-battery
sentinel of the spec. -/
def BatteryField.isUnknown : BatteryField → Bool
  | BatteryField.nullval => true
  | BatteryField.na => true
  | BatteryField.val _ => false

/-- The odometry React state (App.js line 70): x, y in meters, theta in
radians, stored after toFixed rounding. -/
structure Odom where
  x : ℝ
  y : ℝ
  theta : ℝ

/-- The connectionStatus React state.  The source stores a string; every
string it ever stores is produced by one of these constructors, rendered by
ConnStatus.render, so the inductive is a faithful structured view. -/
inductive ConnStatus
  | alreadyConnected
  | connectingTo (url : String)
  | connectedMaster
  | connectionError (msg : Option String)
  | disconnectedWithCode (code : Option ℕ)
  | disconnectedPlain
  | failedToConnect (msg : String)
deriving DecidableEq, Repr

/-- The exact strings App.js passes to setConnectionStatus. -/
def ConnStatus.render : ConnStatus → String
  | ConnStatus.alreadyConnected => "Already connected."
  | ConnStatus.connectingTo url => "Connecting to " ++ url ++ "..."
  | ConnStatus.connectedMaster => "Connected to ROS Master via rosbridge"
  | ConnStatus.connectionError m => "Connection Error: " ++ m.getD "Unknown error"
  | ConnStatus.disconnectedWithCode c =>
      "Disconnected (" ++ (match c with
        | some n => if n = 0 then "N/A" else toString n
        | none => "N/A") ++ ")"
  | ConnStatus.disconnectedPlain => "Disconnected"
  | ConnStatus.failedToConnect m => "Failed to connect: " ++ m

/-- The abstract ConnectionState of the spec data model, derived from the
observable React state (isConnected flag plus status string class). -/
inductive ConnectionState
  | Disconnected
  | Connecting
  | Connected
  | Error
deriving DecidableEq, Repr

/-- The ROS_CONFIG topics object of App.js lines 24-32.  The odometry entry is
commented out in the source, so the object has no such property. -/
structure TopicsConfig where
  cmdVel : String
  batteryStatus : String
  robotStatus : String

/-- The ROS_CONFIG messageTypes object of App.js lines 33-38.  The odometry
entry is commented out in the source. -/
structure MessageTypesConfig where
  twist : String
  batteryState : String
  stringMsg : String

/-- ROS_CONFIG (App.js lines 23-43), restricted to the fields the session
logic reads; joystickSensitivity is only read by the UI layer. -/
structure RosConfig where
  topics : TopicsConfig
  messageTypes : MessageTypesConfig

def ROS_CONFIG : RosConfig :=
  { topics :=
      { cmdVel := "/cmd_vel"
        batteryStatus := "/battery_status"
        robotStatus := "/robot_status_app" }
    messageTypes :=
      { twist := "geometry_msgs/Twist"
        batteryState := "sensor_msgs/BatteryState"
        stringMsg := "std_msgs/String" } }

/-- The JS expression ROS_CONFIG.topics.odometry.  The property is commented
out in the source (App.js line 27), so reading it yields undefined, modelled
as none.  subscribeToTopics (line 196) and the dispatcher (line 106) still
read it. -/
def topicsOdometry : Option String := none

/-- The JS expression ROS_CONFIG.messageTypes.odometry; the property is
commented out in the source (App.js line 36), so reading it yields
undefined. -/
def messageTypesOdometry : Option String := none

/-- The correlation-id generator (App.js line 46).  The source concatenates a
timestamp and a random suffix; the model injects a monotonic counter as the
id source (the design note of the spec), which preserves the property used:
each outbound frame carries a fresh unique id. -/
def generateUniqueID (n : ℕ) : String := "op_" ++ toString n

/-- The whole observable session state: the React state variables of App.js
lines 63-74 plus an explicit model of the WebSocket environment (which socket
the ws ref holds, each created socket readyState, and the log of frames sent,
tagged with the socket that sent them). -/
structure Sys where
  rosbridgeUrl : String
  isConnected : Bool
  connectionStatus : ConnStatus
  lastError : Option String
  batteryPercentage : BatteryField
  odometry : Odom
  robotStatusText : String
  ws : Option ℕ
  readyState : ℕ → ReadyState
  nextSock : ℕ
  nextOp : ℕ
  sent : List (ℕ × Frame)

/-- The initial React state (App.js lines 63-74): url default, disconnected,
no error, battery null, zero pose, status "N/A", ws ref null. -/
def initSys : Sys :=
  { rosbridgeUrl := "ws://192.168.1.100:9090"
    isConnected := false
    connectionStatus := ConnStatus.disconnectedPlain
    lastError := none
    batteryPercentage := BatteryField.nullval
    odometry := ⟨0, 0, 0⟩
    robotStatusText := "N/A"
    ws := none
    readyState := fun _ => ReadyState.closed
    nextSock := 0
    nextOp := 0
    sent := [] }

/-- The guard expression of App.js line 78 and the send guards of lines 167,
182, 202: ws.current exists and its readyState is OPEN. -/
def isSocketOpen (s : Sys) : Bool :=
  match s.ws with
  | some sid => decide (s.readyState sid = ReadyState.opened)
  | none => false

/-- The abstract connection state of the spec, read off the observable
fields. -/
def connState (s : Sys) : ConnectionState :=
  if s.isConnected then ConnectionState.Connected
  else
    match s.connectionStatus with
    | ConnStatus.connectingTo _ => ConnectionState.Connecting
    | ConnStatus.connectionError _ => ConnectionState.Error
    | ConnStatus.failedToConnect _ => ConnectionState.Error
    | _ => ConnectionState.Disconnected

/-- subscribeToTopic (App.js lines 166-178).  If the socket is absent or not
open, the call is a silent no-op (there is no else branch in the source).
The default throttleRate of the source is 200; callers of the model pass it
explicitly. -/
def subscribeToTopic (topicName messageType : Option String) (throttleRate : ℕ)
    (s : Sys) : Sys :=
  match s.ws with
  | some sid =>
      if s.readyState sid = ReadyState.opened then
        { s with
            sent := s.sent ++
              [(sid, Frame.subscribe (generateUniqueID s.nextOp) topicName messageType throttleRate)]
            nextOp := s.nextOp + 1 }
      else s
  | none => s

/-- unsubscribeFromTopic (App.js lines 181-191): same silent guard as
subscribeToTopic, no error recorded. -/
def unsubscribeFromTopic (topicName : Option String) (s : Sys) : Sys :=
  match s.ws with
  | some sid =>
      if s.readyState sid = ReadyState.opened then
        { s with
            sent := s.sent ++ [(sid, Frame.unsubscribe (generateUniqueID s.nextOp) topicName)]
            nextOp := s.nextOp + 1 }
      else s
  | none => s

/-- subscribeToTopics (App.js lines 194-198): battery, then odometry, then
robot status.  The odometry call passes the commented-out config entries,
i.e. undefined topic and type. -/
def subscribeToTopics (s : Sys) : Sys :=
  subscribeToTopic (some ROS_CONFIG.topics.robotStatus) (some ROS_CONFIG.messageTypes.stringMsg) 200
    (subscribeToTopic topicsOdometry messageTypesOdometry 200
      (subscribeToTopic (some ROS_CONFIG.topics.batteryStatus) (some ROS_CONFIG.messageTypes.batteryState) 200 s))

/-- The exact string of App.js line 214. -/
def cannotSendError : String := "Cannot send command: Not connected."

/-- publishMessage (App.js lines 201-216).  When the socket is absent or not
open, no frame is sent and the precondition error is recorded as last
error. -/
def publishMessage (topicName messageType : String) (messagePayload : Payload)
    (s : Sys) : Sys :=
  match s.ws with
  | some sid =>
      if s.readyState sid = ReadyState.opened then
        { s with
            sent := s.sent ++
              [(sid, Frame.publish (generateUniqueID s.nextOp) topicName messagePayload messageType)]
            nextOp := s.nextOp + 1 }
      else { s with lastError := some cannotSendError }
  | none => { s with lastError := some cannotSendError }

/-- sendTwistCommand (App.js lines 219-225): the sendVelocity operation of
the spec. -/
def sendTwistCommand (linearX angularZ : ℝ) (s : Sys) : Sys :=
  publishMessage ROS_CONFIG.topics.cmdVel ROS_CONFIG.messageTypes.twist
    (Payload.twist
      { linear := { x := linearX, y := 0, z := 0 }
        angular := { x := 0, y := 0, z := angularZ } }) s

/-- handleEmergencyStop (App.js lines 227-232): sends a zero twist; the
Alert call is presentation only and outside the session state. -/
def handleEmergencyStop (s : Sys) : Sys :=
  sendTwistCommand 0 0 s

/-- disconnectFromRosbridge (App.js lines 149-163): calls close() on the held
socket if present (the readyState moves to CLOSING unless the socket is
already closing or closed), then resets the React state.  Note the ws ref is
NOT cleared here; the onclose handler (line 140) clears it when the close
event arrives. -/
def disconnectFromRosbridge (s : Sys) : Sys :=
  let s1 :=
    match s.ws with
    | some sid =>
        { s with
            readyState := fun k =>
              if k = sid then
                match s.readyState sid with
                | ReadyState.connecting => ReadyState.closing
                | ReadyState.opened => ReadyState.closing
                | st => st
              else s.readyState k }
    | none => s
  { s1 with
      isConnected := false
      connectionStatus := ConnStatus.disconnectedPlain
      batteryPercentage := BatteryField.nullval
      odometry := ⟨0, 0, 0⟩
      robotStatusText := "N/A" }

/-- connectToRosbridge (App.js lines 77-147).  The ctorErr parameter models
the try block around the WebSocket constructor: none means construction
succeeds (a new socket id in CONNECTING state is stored in the ws ref); some
m means the constructor throws with message m (the ws ref keeps its old
value).  The already-connected guard (line 78) only tests readyState OPEN. -/
def connectToRosbridge (ctorErr : Option String) (s : Sys) : Sys :=
  if isSocketOpen s then
    { s with connectionStatus := ConnStatus.alreadyConnected }
  else
    let s1 := { s with
      connectionStatus := ConnStatus.connectingTo s.rosbridgeUrl
      lastError := none }
    match ctorErr with
    | none =>
        { s1 with
            ws := some s1.nextSock
            readyState := fun k =>
              if k = s1.nextSock then ReadyState.connecting else s1.readyState k
            nextSock := s1.nextSock + 1 }
    | some m =>
        { s1 with
            connectionStatus := ConnStatus.failedToConnect m
            lastError := some ("Connection Init Error: " ++ m) }

/-- Math.atan2(y, x), modelled as the argument of the complex number
x + y*i (the standard principal-value atan2 on the reals). -/
noncomputable def atan2 (y x : ℝ) : ℝ := Complex.arg ⟨x, y⟩

/-- A parsed orientation quaternion object; each field may be absent
(undefined) as in a JSON object. -/
structure Quat where
  x : Option ℝ
  y : Option ℝ
  z : Option ℝ
  w : Option ℝ

/-- quaternionToYaw (App.js lines 50-58): returns 0 when the argument is
null/undefined or any of the four fields is undefined, otherwise the planar
yaw formula atan2(2(wz+xy), 1-2(y*y+z*z)). -/
noncomputable def quaternionToYaw (q : Option Quat) : ℝ :=
  match q with
  | none => 0
  | some q =>
      match q.w, q.x, q.y, q.z with
      | some w, some x, some y, some z =>
          atan2 (2 * (w * z + x * y)) (1 - 2 * (y * y + z * z))
      | _, _, _, _ => 0

/-- The JS Number.prototype.toFixed(d), read back as a number: round to d
decimal places. -/
noncomputable def toFixed (x : ℝ) (d : ℕ) : ℝ := (round (x * 10 ^ d) : ℤ) / 10 ^ d

/-- A parsed position object of an odometry message; fields may be absent. -/
structure PositionMsg where
  x : Option ℝ
  y : Option ℝ
  z : Option ℝ

/-- The inner pose object msg.pose.pose of an odometry message. -/
structure PosePose where
  position : Option PositionMsg
  orientation : Option Quat

/-- The outer pose object msg.pose of an odometry message; its pose field may
be absent. -/
structure PoseOuter where
  pose : Option PosePose

/-- The fields of a JSON msg object that the dispatcher reads: percentage
(battery frames), pose (odometry frames), data (status-string frames). -/
structure MsgBody where
  percentage : Option ℝ
  pose : Option PoseOuter
  data : Option String

/-- The JSON value found at message.msg: either an object (publish frames) or
a string (rosbridge status frames). -/
inductive JMsg
  | body (b : MsgBody)
  | jstr (sv : String)

/-- A successfully parsed inbound frame; every field the dispatcher reads may
be absent. -/
structure InMsg where
  op : Option String
  topic : Option String
  msg : Option JMsg
  level : Option String
  id : Option String

/-- An inbound WebSocket message event: either data that fails JSON.parse or
a parsed frame. -/
inductive InData
  | invalidJson
  | parsed (m : InMsg)

/-- The JS expression message.msg.percentage, in the Except monad: accessing
a property of undefined throws; a property of a string value is undefined. -/
def getPercentage : Option JMsg → Except Unit (Option ℝ)
  | none => Except.error ()
  | some (JMsg.jstr _) => Except.ok none
  | some (JMsg.body b) => Except.ok b.percentage

/-- The JS expression message.msg.pose.pose followed by destructuring
position and orientation from it: throws when msg is undefined, when
msg.pose is undefined (property of undefined), or when msg.pose.pose is
undefined (destructuring undefined). -/
def getPosePose : Option JMsg → Except Unit PosePose
  | none => Except.error ()
  | some (JMsg.jstr _) => Except.error ()
  | some (JMsg.body b) =>
      match b.pose with
      | none => Except.error ()
      | some outer =>
          match outer.pose with
          | none => Except.error ()
          | some pp => Except.ok pp

/-- The JS expression message.msg.data: throws when msg is undefined;
undefined when msg is a string. -/
def getData : Option JMsg → Except Unit (Option String)
  | none => Except.error ()
  | some (JMsg.jstr _) => Except.ok none
  | some (JMsg.body b) => Except.ok b.data

/-- Accessing a value that must be defined (position, position.x.toFixed,
position.y.toFixed): throws on undefined. -/
def jsDefined {α : Type} : Option α → Except Unit α
  | some a => Except.ok a
  | none => Except.error ()

/-- The JS template stringification of message.msg in the status branch. -/
def displayMsg : Option JMsg → String
  | none => "undefined"
  | some (JMsg.jstr sv) => sv
  | some (JMsg.body _) => "[object Object]"

/-- The exact string of App.js line 125. -/
def processingError : String := "Error processing message from ROS."

/-- The try-block body of the onmessage handler (App.js lines 98-122),
dispatching one parsed frame; a thrown TypeError is an Except.error.  Note
the odometry branch compares message.topic with the undefined
ROS_CONFIG.topics.odometry, so it is entered exactly by frames whose topic
field is absent. -/
noncomputable def dispatchParsed (s : Sys) (m : InMsg) : Except Unit Sys :=
  if m.op = some "publish" then
    if m.topic = some ROS_CONFIG.topics.batteryStatus then do
      let p ← getPercentage m.msg
      pure { s with
        batteryPercentage :=
          match p with
          | some v => BatteryField.val (toFixed (v * 100) 1)
          | none => BatteryField.na }
    else if m.topic = topicsOdometry then do
      let pp ← getPosePose m.msg
      let pos ← jsDefined pp.position
      let px ← jsDefined pos.x
      let py ← jsDefined pos.y
      pure { s with
        odometry :=
          { x := toFixed px 2
            y := toFixed py 2
            theta := toFixed (quaternionToYaw pp.orientation) 2 } }
    else if m.topic = some ROS_CONFIG.topics.robotStatus then do
      let d ← getData m.msg
      pure { s with
        robotStatusText :=
          match d with
          | some t => if t = "" then "N/A" else t
          | none => "N/A" }
    else pure s
  else if m.op = some "status" then
    if m.level = some "error" ∨ m.level = some "warning" then
      pure { s with lastError := some ("ROS Bridge Error: " ++ displayMsg m.msg) }
    else pure s
  else pure s

/-- The onmessage handler (App.js lines 96-127): JSON.parse failure or any
throw inside the try block is caught and recorded as a decode error; nothing
escapes the dispatch boundary. -/
noncomputable def deliverMessage (d : InData) (s : Sys) : Sys :=
  match d with
  | InData.invalidJson => { s with lastError := some processingError }
  | InData.parsed m =>
      match dispatchParsed s m with
      | Except.ok s1 => s1
      | Except.error _ => { s with lastError := some processingError }

/-- Delivery of a socket open event for socket sid (transport marks the
socket OPEN, then the onopen handler of App.js lines 88-94 runs: it sets the
connected state and calls subscribeToTopics, unconditionally — the handler
never compares sid with the currently held ws ref). -/
def deliverOpen (sid : ℕ) (s : Sys) : Sys :=
  let s0 := { s with
    readyState := fun k => if k = sid then ReadyState.opened else s.readyState k }
  subscribeToTopics
    { s0 with
        isConnected := true
        connectionStatus := ConnStatus.connectedMaster }

/-- Delivery of a socket error event (the onerror handler of App.js lines
129-134); the handler ignores which socket fired and applies its effects
unconditionally. -/
def deliverError (_sid : ℕ) (err : Option String) (s : Sys) : Sys :=
  { s with
      isConnected := false
      connectionStatus := ConnStatus.connectionError err
      lastError := some ("WebSocket Error: " ++ err.getD "Check console") }

/-- Delivery of a socket close event for socket sid (transport marks the
socket CLOSED, then the onclose handler of App.js lines 136-141 runs: it
clears the ws ref and sets the disconnected state, unconditionally). -/
def deliverClose (sid : ℕ) (code : Option ℕ) (s : Sys) : Sys :=
  let s0 := { s with
    readyState := fun k => if k = sid then ReadyState.closed else s.readyState k }
  { s0 with
      isConnected := false
      connectionStatus := ConnStatus.disconnectedWithCode code
      ws := none }

/-- A state with one freshly opened connection: connect from the initial
state, then delivery of the open event for the created socket. -/
noncomputable def sOpen : Sys := deliverOpen 0 (connectToRosbridge none initSys)

theorem atan2_zero_one : atan2 0 1 = 0 := by
  have h1 : (⟨1, 0⟩ : ℂ) = 1 := by
    apply Complex.ext <;> simp
  simp [atan2, h1, Complex.arg_one]

theorem toFixed_755 : toFixed (0.755 * 100) 1 = 75.5 := by
  have h : ((0.755 : ℝ) * 100) * 10 ^ 1 = ((755 : ℤ) : ℝ) := by norm_num
  rw [toFixed, h, round_intCast]
  norm_num

/-- C1: on the open event after a fresh connect, the session issues exactly
three subscribe frames with fresh distinct ids and throttle_rate 200, but
the second (odometry) frame carries topic undefined and type undefined (the
config entries are commented out), not "/odom" with "nav_msgs/Odometry". -/
theorem c1_subscribe_frames_on_open :
    (deliverOpen 0 (connectToRosbridge none initSys)).sent =
      [(0, Frame.subscribe (generateUniqueID 0) (some "/battery_status")
            (some "sensor_msgs/BatteryState") 200),
       (0, Frame.subscribe (generateUniqueID 1) none none 200),
       (0, Frame.subscribe (generateUniqueID 2) (some "/robot_status_app")
            (some "std_msgs/String") 200)]
    ∧ generateUniqueID 0 ≠ generateUniqueID 1
    ∧ generateUniqueID 1 ≠ generateUniqueID 2
    ∧ generateUniqueID 0 ≠ generateUniqueID 2 := by
  refine ⟨rfl, ?_, ?_, ?_⟩ <;> decide

/-- C2 counterexample: a subscribe call while disconnected leaves the last
error unchanged (none) — no precondition error is recorded, contrary to the
claim; the call sends nothing. -/
theorem c2_counterexample :
    (subscribeToTopic (some "/battery_status") (some "sensor_msgs/BatteryState") 200
        initSys).lastError = none
    ∧ (subscribeToTopic (some "/battery_status") (some "sensor_msgs/BatteryState") 200
        initSys).sent = []
    ∧ (unsubscribeFromTopic (some "/battery_status") initSys).lastError = none
    ∧ (unsubscribeFromTopic (some "/battery_status") initSys).sent = [] :=
  ⟨rfl, rfl, rfl, rfl⟩

/-- C2 amended: while the socket is absent or not open, subscribe,
unsubscribe and publish send no frame; publish records the precondition
error "Cannot send command: Not connected." as the last error, while
subscribe and unsubscribe are silent no-ops that leave the last error
unchanged. -/
theorem c2_not_connected_noop (s : Sys) (h : isSocketOpen s = false)
    (t mt : Option String) (r : ℕ) (pt pmt : String) (p : Payload) :
    (subscribeToTopic t mt r s).sent = s.sent
    ∧ (subscribeToTopic t mt r s).lastError = s.lastError
    ∧ (unsubscribeFromTopic t s).sent = s.sent
    ∧ (unsubscribeFromTopic t s).lastError = s.lastError
    ∧ (publishMessage pt pmt p s).sent = s.sent
    ∧ (publishMessage pt pmt p s).lastError = some cannotSendError := by
  cases hws : s.ws with
  | none => simp [subscribeToTopic, unsubscribeFromTopic, publishMessage, hws]
  | some sid =>
      have hrs : ¬ s.readyState sid = ReadyState.opened := by
        simpa [isSocketOpen, hws] using h
      simp [subscribeToTopic, unsubscribeFromTopic, publishMessage, hws, hrs]

theorem c2_witness :
    isSocketOpen initSys = false
    ∧ (publishMessage "/cmd_vel" "geometry_msgs/Twist" (Payload.strData "x")
        initSys).lastError = some cannotSendError :=
  ⟨rfl, (c2_not_connected_noop initSys rfl none none 200 "/cmd_vel" "geometry_msgs/Twist"
      (Payload.strData "x")).2.2.2.2.2⟩

/-- C3: for a quaternion with all four fields defined the yaw decoder
returns atan2(2(wz+xy), 1-2(yy+zz)); on the identity quaternion it returns
0; and on an undefined argument or a quaternion missing any field it
returns 0. -/
theorem c3_quaternionToYaw_spec :
    (∀ x y z w : ℝ,
      quaternionToYaw (some ⟨some x, some y, some z, some w⟩) =
        atan2 (2 * (w * z + x * y)) (1 - 2 * (y * y + z * z)))
    ∧ quaternionToYaw (some ⟨some 0, some 0, some 0, some 1⟩) = 0
    ∧ quaternionToYaw none = 0
    ∧ ∀ q : Quat, (q.x = none ∨ q.y = none ∨ q.z = none ∨ q.w = none) →
        quaternionToYaw (some q) = 0 := by
  refine ⟨fun x y z w => rfl, ?_, rfl, ?_⟩
  · have h : quaternionToYaw (some ⟨some 0, some 0, some 0, some 1⟩) =
        atan2 (2 * ((1 : ℝ) * 0 + 0 * 0)) (1 - 2 * ((0 : ℝ) * 0 + 0 * 0)) := rfl
    rw [h]
    norm_num [atan2_zero_one]
  · intro q h
    obtain ⟨qx, qy, qz, qw⟩ := q
    cases qw <;> cases qx <;> cases qy <;> cases qz <;>
      simp_all [quaternionToYaw]

theorem c3_witness :
    ((⟨none, some 0, some 0, some 1⟩ : Quat).x = none
      ∨ (⟨none, some 0, some 0, some 1⟩ : Quat).y = none
      ∨ (⟨none, some 0, some 0, some 1⟩ : Quat).z = none
      ∨ (⟨none, some 0, some 0, some 1⟩ : Quat).w = none)
    ∧ quaternionToYaw (some ⟨none, some 0, some 0, some 1⟩) = 0 :=
  ⟨Or.inl rfl, c3_quaternionToYaw_spec.2.2.2 ⟨none, some 0, some 0, some 1⟩ (Or.inl rfl)⟩

/-- C4: an inbound publish frame on the battery topic with percentage p sets
the battery snapshot to p scaled by 100 and rounded to one decimal place
(0.755 yields 75.5); with percentage undefined it sets the unknown
sentinel. -/
theorem c4_battery_update (s : Sys) (p : ℝ) (po : Option PoseOuter)
    (da : Option String) (lvl idf : Option String) :
    (deliverMessage (InData.parsed
        { op := some "publish", topic := some ROS_CONFIG.topics.batteryStatus,
          msg := some (JMsg.body { percentage := some p, pose := po, data := da }),
          level := lvl, id := idf }) s).batteryPercentage
      = BatteryField.val (toFixed (p * 100) 1)
    ∧ (deliverMessage (InData.parsed
        { op := some "publish", topic := some ROS_CONFIG.topics.batteryStatus,
          msg := some (JMsg.body { percentage := none, pose := po, data := da }),
          level := lvl, id := idf }) s).batteryPercentage = BatteryField.na
    ∧ BatteryField.na.isUnknown = true
    ∧ toFixed (0.755 * 100) 1 = 75.5 :=
  ⟨rfl, rfl, rfl, toFixed_755⟩

theorem subscribeToTopic_isConnected (t mt : Option String) (r : ℕ) (s : Sys) :
    (subscribeToTopic t mt r s).isConnected = s.isConnected := by
  cases hw : s.ws with
  | none => simp [subscribeToTopic, hw]
  | some sid =>
      simp only [subscribeToTopic, hw]
      split <;> rfl

theorem subscribeToTopic_connectionStatus (t mt : Option String) (r : ℕ) (s : Sys) :
    (subscribeToTopic t mt r s).connectionStatus = s.connectionStatus := by
  cases hw : s.ws with
  | none => simp [subscribeToTopic, hw]
  | some sid =>
      simp only [subscribeToTopic, hw]
      split <;> rfl

theorem subscribeToTopic_ws (t mt : Option String) (r : ℕ) (s : Sys) :
    (subscribeToTopic t mt r s).ws = s.ws := by
  cases hw : s.ws with
  | none => simp [subscribeToTopic, hw]
  | some sid =>
      simp only [subscribeToTopic, hw]
      split <;> simp [hw]

theorem subscribeToTopic_readyState (t mt : Option String) (r : ℕ) (s : Sys) :
    (subscribeToTopic t mt r s).readyState = s.readyState := by
  cases hw : s.ws with
  | none => simp [subscribeToTopic, hw]
  | some sid =>
      simp only [subscribeToTopic, hw]
      split <;> rfl

theorem subscribeToTopic_not_open (t mt : Option String) (r : ℕ) (s : Sys)
    (h : isSocketOpen s = false) : subscribeToTopic t mt r s = s := by
  cases hw : s.ws with
  | none => simp [subscribeToTopic, hw]
  | some sid =>
      have hrs : ¬ s.readyState sid = ReadyState.opened := by
        simpa [isSocketOpen, hw] using h
      simp [subscribeToTopic, hw, hrs]

theorem subscribeToTopics_not_open (s : Sys) (h : isSocketOpen s = false) :
    subscribeToTopics s = s := by
  rw [subscribeToTopics, subscribeToTopic_not_open _ _ _ _ h,
    subscribeToTopic_not_open _ _ _ _ h, subscribeToTopic_not_open _ _ _ _ h]

/-- C5: disconnect resets the connected flag, the status, and the telemetry
snapshot to defaults; it closes the held socket if present, and the ws
reference is cleared when the resulting close event arrives (the onclose
handler), leaving the disconnected state with the snapshot still at
defaults; with no socket held the call is safe and leaves the same reset
state. -/
theorem c5_disconnect_resets (s : Sys) :
    (disconnectFromRosbridge s).isConnected = false
    ∧ (disconnectFromRosbridge s).connectionStatus = ConnStatus.disconnectedPlain
    ∧ connState (disconnectFromRosbridge s) = ConnectionState.Disconnected
    ∧ (disconnectFromRosbridge s).batteryPercentage = BatteryField.nullval
    ∧ (disconnectFromRosbridge s).batteryPercentage.isUnknown = true
    ∧ (disconnectFromRosbridge s).odometry = ⟨0, 0, 0⟩
    ∧ (disconnectFromRosbridge s).robotStatusText = "N/A"
    ∧ (∀ sid, s.ws = some sid →
        ((disconnectFromRosbridge s).readyState sid = ReadyState.closing
          ∨ (disconnectFromRosbridge s).readyState sid = ReadyState.closed)
        ∧ ∀ code,
          (deliverClose sid code (disconnectFromRosbridge s)).ws = none
          ∧ connState (deliverClose sid code (disconnectFromRosbridge s))
              = ConnectionState.Disconnected
          ∧ (deliverClose sid code (disconnectFromRosbridge s)).batteryPercentage
              = BatteryField.nullval
          ∧ (deliverClose sid code (disconnectFromRosbridge s)).odometry = ⟨0, 0, 0⟩
          ∧ (deliverClose sid code (disconnectFromRosbridge s)).robotStatusText = "N/A")
    ∧ (s.ws = none → (disconnectFromRosbridge s).ws = s.ws) := by
  refine ⟨rfl, rfl, rfl, rfl, rfl, rfl, rfl, ?_, ?_⟩
  · intro sid h
    constructor
    · cases hrs : s.readyState sid <;>
        simp [disconnectFromRosbridge, h, hrs]
    · intro code
      exact ⟨rfl, rfl, rfl, rfl, rfl⟩
  · intro h
    simp [disconnectFromRosbridge, h]

theorem c5_witness :
    sOpen.ws = some 0
    ∧ (deliverClose 0 (some 1000) (disconnectFromRosbridge sOpen)).ws = none
    ∧ initSys.ws = none
    ∧ (disconnectFromRosbridge initSys).ws = initSys.ws :=
  ⟨rfl,
   (((c5_disconnect_resets sOpen).2.2.2.2.2.2.2.1 0 rfl).2 (some 1000)).1,
   rfl,
   (c5_disconnect_resets initSys).2.2.2.2.2.2.2.2 rfl⟩

/-- C6 counterexample: with the first socket still connecting (not yet
open), a second connect call is not a no-op: it creates a second socket
(socket 1, socket counter now 2) and stores it in the ws reference, instead
of reporting already connected. -/
theorem c6_counterexample :
    (connectToRosbridge none initSys).ws = some 0
    ∧ (connectToRosbridge none initSys).readyState 0 = ReadyState.connecting
    ∧ (connectToRosbridge none (connectToRosbridge none initSys)).ws = some 1
    ∧ (connectToRosbridge none (connectToRosbridge none initSys)).nextSock = 2
    ∧ (connectToRosbridge none (connectToRosbridge none initSys)).connectionStatus
        = ConnStatus.connectingTo "ws://192.168.1.100:9090" :=
  ⟨rfl, rfl, rfl, rfl, rfl⟩

/-- C6 amended: only while the held socket is currently open is connect a
no-op reporting already connected (no new socket, no frames, no counter
change); while the held socket is still connecting, a second connect passes
the guard and creates a new socket that replaces the reference. -/
theorem c6_connect_guard (s : Sys) (sid : ℕ) (e : Option String)
    (h1 : s.ws = some sid) :
    (s.readyState sid = ReadyState.opened →
      (connectToRosbridge e s).connectionStatus = ConnStatus.alreadyConnected
      ∧ (connectToRosbridge e s).ws = s.ws
      ∧ (connectToRosbridge e s).sent = s.sent
      ∧ (connectToRosbridge e s).nextSock = s.nextSock
      ∧ (connectToRosbridge e s).readyState = s.readyState)
    ∧ (s.readyState sid = ReadyState.connecting →
      (connectToRosbridge none s).ws = some s.nextSock
      ∧ (connectToRosbridge none s).nextSock = s.nextSock + 1
      ∧ (connectToRosbridge none s).sent = s.sent) := by
  constructor
  · intro h2
    have hg : isSocketOpen s = true := by simp [isSocketOpen, h1, h2]
    simp [connectToRosbridge, hg]
  · intro h2
    have hg : isSocketOpen s = false := by simp [isSocketOpen, h1, h2]
    simp [connectToRosbridge, hg]

theorem c6_witness :
    sOpen.ws = some 0
    ∧ sOpen.readyState 0 = ReadyState.opened
    ∧ (connectToRosbridge none sOpen).connectionStatus = ConnStatus.alreadyConnected
    ∧ (connectToRosbridge none (connectToRosbridge none initSys)).ws
        = some (connectToRosbridge none initSys).nextSock :=
  ⟨rfl, rfl,
   ((c6_connect_guard sOpen 0 none rfl).1 rfl).1,
   ((c6_connect_guard (connectToRosbridge none initSys) 0 none rfl).2 rfl).1⟩

/-- C7 counterexample: a publish frame on topic "/odom" whose msg has no
pose at all leaves the session state entirely unchanged — in particular no
decode error is recorded as the last error, contrary to the claim (the
topic matches no dispatch branch because the odometry config entry is
commented out). -/
theorem c7_counterexample :
    deliverMessage (InData.parsed
      { op := some "publish", topic := some "/odom",
        msg := some (JMsg.body { percentage := none, pose := none, data := none }),
        level := none, id := none }) initSys = initSys
    ∧ initSys.lastError = none :=
  ⟨rfl, rfl⟩

/-- C7 amended: an inbound frame that is not valid JSON records the decode
error as the last error and changes nothing else (no throw past the
dispatch boundary, connection state and telemetry untouched); a publish
frame on the odometry topic "/odom" — malformed or not — is ignored
entirely, with no state change and no error recorded; and a subsequent
well-formed battery frame is processed normally. -/
theorem c7_malformed_frames (s : Sys) (jm : Option JMsg)
    (lvl idf : Option String) (p : ℝ) :
    (deliverMessage InData.invalidJson s).lastError = some processingError
    ∧ (deliverMessage InData.invalidJson s).isConnected = s.isConnected
    ∧ (deliverMessage InData.invalidJson s).connectionStatus = s.connectionStatus
    ∧ connState (deliverMessage InData.invalidJson s) = connState s
    ∧ (deliverMessage InData.invalidJson s).batteryPercentage = s.batteryPercentage
    ∧ (deliverMessage InData.invalidJson s).odometry = s.odometry
    ∧ (deliverMessage InData.invalidJson s).robotStatusText = s.robotStatusText
    ∧ (deliverMessage InData.invalidJson s).ws = s.ws
    ∧ (deliverMessage InData.invalidJson s).sent = s.sent
    ∧ deliverMessage (InData.parsed
        { op := some "publish", topic := some "/odom", msg := jm,
          level := lvl, id := idf }) s = s
    ∧ (deliverMessage (InData.parsed
        { op := some "publish", topic := some ROS_CONFIG.topics.batteryStatus,
          msg := some (JMsg.body { percentage := some p, pose := none, data := none }),
          level := none, id := none })
        (deliverMessage InData.invalidJson s)).batteryPercentage
        = BatteryField.val (toFixed (p * 100) 1) :=
  ⟨rfl, rfl, rfl, rfl, rfl, rfl, rfl, rfl, rfl, rfl, rfl⟩

/-- C8: while the held socket is open, sendVelocity publishes exactly one
frame to the velocity topic with the twist payload of the claim;
emergencyStop issues the same publish as sendVelocity(0,0); and
sendVelocity(l,a) followed by emergencyStop appends exactly two publish
frames to the velocity topic, the second with zero linear x and zero
angular z. -/
theorem c8_velocity_frames (s : Sys) (sid : ℕ) (l a : ℝ)
    (h1 : s.ws = some sid) (h2 : s.readyState sid = ReadyState.opened) :
    (sendTwistCommand l a s).sent = s.sent ++
      [(sid, Frame.publish (generateUniqueID s.nextOp) ROS_CONFIG.topics.cmdVel
          (Payload.twist ⟨⟨l, 0, 0⟩, ⟨0, 0, a⟩⟩) ROS_CONFIG.messageTypes.twist)]
    ∧ handleEmergencyStop s = sendTwistCommand 0 0 s
    ∧ (handleEmergencyStop (sendTwistCommand l a s)).sent = s.sent ++
      [(sid, Frame.publish (generateUniqueID s.nextOp) ROS_CONFIG.topics.cmdVel
          (Payload.twist ⟨⟨l, 0, 0⟩, ⟨0, 0, a⟩⟩) ROS_CONFIG.messageTypes.twist),
       (sid, Frame.publish (generateUniqueID (s.nextOp + 1)) ROS_CONFIG.topics.cmdVel
          (Payload.twist ⟨⟨0, 0, 0⟩, ⟨0, 0, 0⟩⟩) ROS_CONFIG.messageTypes.twist)] := by
  refine ⟨?_, rfl, ?_⟩
  · simp [sendTwistCommand, publishMessage, h1, h2]
  · simp [handleEmergencyStop, sendTwistCommand, publishMessage, h1, h2]

theorem c8_witness :
    sOpen.ws = some 0
    ∧ sOpen.readyState 0 = ReadyState.opened
    ∧ handleEmergencyStop sOpen = sendTwistCommand 0 0 sOpen :=
  ⟨rfl, rfl, (c8_velocity_frames sOpen 0 0.2 0 rfl rfl).2.1⟩

theorem deliverOpen_sent_of_current_not_open (sid : ℕ) (s : Sys) (k : ℕ)
    (hk : s.ws = some k) (hne : k ≠ sid)
    (hro : s.readyState k ≠ ReadyState.opened) :
    (deliverOpen sid s).sent = s.sent := by
  simp only [deliverOpen]
  rw [subscribeToTopics_not_open]
  · simp [isSocketOpen, hk, hne, hro]

theorem deliverOpen_sent_of_no_socket (sid : ℕ) (s : Sys) (hk : s.ws = none) :
    (deliverOpen sid s).sent = s.sent := by
  simp only [deliverOpen]
  rw [subscribeToTopics_not_open]
  · simp [isSocketOpen, hk]

/-- C9 counterexample: after a second connect has superseded socket 0 (the
reference now holds socket 1), a late open event for the discarded socket 0
is not ignored: it transitions the session to Connected.  (The handlers
never compare the event socket against the currently held reference.) -/
theorem c9_counterexample :
    (connectToRosbridge none (connectToRosbridge none initSys)).ws = some 1
    ∧ (connectToRosbridge none (connectToRosbridge none initSys)).isConnected = false
    ∧ (deliverOpen 0 (connectToRosbridge none (connectToRosbridge none initSys))).isConnected
        = true
    ∧ (deliverOpen 0 (connectToRosbridge none (connectToRosbridge none initSys))).connectionStatus
        = ConnStatus.connectedMaster
    ∧ connState (deliverOpen 0 (connectToRosbridge none (connectToRosbridge none initSys)))
        = ConnectionState.Connected :=
  ⟨rfl, rfl, rfl, rfl, rfl⟩

/-- C9 amended: late open and error events for a superseded socket are not
ignored — the handlers apply their state transitions and error records
unconditionally, without comparing the event socket against the currently
held reference; only the subscribe frames are suppressed, because
subscribeToTopics tests the currently held socket, when that socket is
absent or not open. -/
theorem c9_late_events_not_ignored (s : Sys) (sid : ℕ) (err : Option String) :
    (deliverOpen sid s).isConnected = true
    ∧ (deliverOpen sid s).connectionStatus = ConnStatus.connectedMaster
    ∧ (deliverError sid err s).isConnected = false
    ∧ (deliverError sid err s).connectionStatus = ConnStatus.connectionError err
    ∧ (deliverError sid err s).lastError
        = some ("WebSocket Error: " ++ err.getD "Check console")
    ∧ (∀ k, s.ws = some k → k ≠ sid → s.readyState k ≠ ReadyState.opened →
        (deliverOpen sid s).sent = s.sent)
    ∧ (s.ws = none → (deliverOpen sid s).sent = s.sent) := by
  refine ⟨?_, ?_, rfl, rfl, rfl, ?_, ?_⟩
  · simp [deliverOpen, subscribeToTopics, subscribeToTopic_isConnected]
  · simp [deliverOpen, subscribeToTopics, subscribeToTopic_connectionStatus]
  · intro k hk hne hro
    exact deliverOpen_sent_of_current_not_open sid s k hk hne hro
  · intro hk
    exact deliverOpen_sent_of_no_socket sid s hk

theorem c9_witness :
    (connectToRosbridge none (connectToRosbridge none initSys)).ws = some 1
    ∧ (deliverOpen 0 (connectToRosbridge none (connectToRosbridge none initSys))).sent
        = (connectToRosbridge none (connectToRosbridge none initSys)).sent :=
  ⟨rfl,
   (c9_late_events_not_ignored (connectToRosbridge none (connectToRosbridge none initSys))
      0 none).2.2.2.2.2.1 1 rfl (by decide) (by decide)⟩

/-- C10: every connect call that passes the already-connected guard clears
the last-error field before attempting the connection: on successful socket
construction the last error is none, and on a constructor throw it is the
fresh construction error — either way no error from a previous session
remains observable. -/
theorem c10_connect_clears_lastError (s : Sys) (h : isSocketOpen s = false) :
    (connectToRosbridge none s).lastError = none
    ∧ ∀ m, (connectToRosbridge (some m) s).lastError
        = some ("Connection Init Error: " ++ m) := by
  constructor
  · simp [connectToRosbridge, h]
  · intro m
    simp [connectToRosbridge, h]

theorem c10_witness :
    isSocketOpen (deliverError 0 (some "refused") initSys) = false
    ∧ (deliverError 0 (some "refused") initSys).lastError
        = some "WebSocket Error: refused"
    ∧ (connectToRosbridge none (deliverError 0 (some "refused") initSys)).lastError = none :=
  ⟨rfl, rfl, (c10_connect_clears_lastError (deliverError 0 (some "refused") initSys) rfl).1⟩
